import Mathlib

/-!
Formal model of the request-to-document pipeline of `src/server.js`
(ryolambert/react-pwa).  Pure fragments of the handler (asset filtering,
SEO aggregation via lodash defaults, the manifest handler) are embedded
directly; the promise-based control flow of the catch-all handler is
embedded as a total function from a per-request environment (the settled
results of the preload promises and the context effects of the render
step) to the single HTTP response the handler emits.
-/

namespace ReactPwaServer

/-! ### JavaScript string primitives used by the filters -/

/-- Substring test on character lists: models JavaScript
`s.indexOf(sub) !== -1`.  The empty pattern occurs in every string. -/
def hasSubChars (sub : List Char) : List Char → Bool
  | [] => sub.isEmpty
  | c :: rest => sub.isPrefixOf (c :: rest) || hasSubChars sub rest

/-- Models, as `jsIncludes s sub`, `s.indexOf(sub) !== -1` on strings. -/
def jsIncludes (s sub : String) : Bool :=
  hasSubChars sub.data s.data

/-- Models `p.split("/").pop()`: the last path component of an asset
path, i.e. everything after the last `/` (the whole string when it has
none, empty when it ends in `/`). -/
def fileNameOf (p : String) : String :=
  String.mk (p.data.foldl (fun acc c => if c = '/' then [] else acc ++ [c]) [])

/-- Models lodash `_.startsWith(s, pre)`. -/
def startsWithJs (pre s : String) : Bool :=
  pre.data.isPrefixOf s.data

/-- JavaScript `x || d` for an optional numeric field (`undefined` and `0`
are falsy), as in `context.status || 200` and `err.statusCode || 500`. -/
def jsOrNat : Option Nat → Nat → Nat
  | some n, d => if n == 0 then d else n
  | none, d => d

/-! ### Asset filtering (`server.js` lines 150-161) -/

/-- The stylesheet filter `currentRouteCss`: keeps a stylesheet unless its file name starts with
`"mod-"` and does not contain the resolved module identifier
(`!(_.startsWith(fileName, "mod-") && fileName.indexOf(mod) === -1)`). -/
def currentRouteCss (mod : String) (allCss : List String) : List String :=
  allCss.filter fun css =>
    !(startsWithJs "mod-" (fileNameOf css) && !(jsIncludes (fileNameOf css) mod))

/-- The script filter `currentRouteJs`: keeps a script unless its file name starts with
`"mod-"` or with `"service-worker.js"`
(`!_.startsWith(fileName, "mod-") && !_.startsWith(fileName, "service-worker.js")`). -/
def currentRouteJs (allJs : List String) : List String :=
  allJs.filter fun js =>
    !(startsWithJs "mod-" (fileNameOf js)) && !(startsWithJs "service-worker.js" (fileNameOf js))

/-! ### SEO metadata objects and lodash `_.defaults` -/

/-- An SEO metadata object: a finite association of field names to values,
looked up first-match-wins (JavaScript object property access). -/
abbrev Seo := List (String × String)

/-- Property lookup on an SEO object. -/
def seoGet : Seo → String → Option String
  | [], _ => none
  | p :: rest, k => if p.1 == k then some p.2 else seoGet rest k

/-- Whether the object defines the field. -/
def seoHas (s : Seo) (k : String) : Bool :=
  (seoGet s k).isSome

/-- Models lodash `_.defaults` applied to a fresh empty target and the
sources `a` then `b`: all fields of `a`, plus those fields of `b`
that `a` leaves unset (earlier sources are never overwritten). -/
def seoDefaults (a b : Seo) : Seo :=
  a ++ b.filter fun p => !(seoHas a p.1)

/-- Fallback on optional values, as produced by `_.defaults`. -/
def jsOrOpt (a b : Option String) : Option String :=
  match a with
  | some v => some v
  | none => b

/-! ### Routes, preload results, errors -/

/-- A JavaScript error value: a message plus an optional `statusCode`
property (absent on plain errors). -/
structure JsError where
  message : String
  statusCode : Option Nat
  deriving DecidableEq

/-- The settled result of one declared preload step. -/
inductive PreloadOutcome where
  | resolved
  | rejected (e : JsError)
  deriving DecidableEq

/-- One entry of the matched route chain, as the catch-all handler
consumes it: its `seo` object (`_.get(r, "seo", {})`) and, when the route
declares a preload step, that step's settled result. -/
structure Route where
  seo : Seo
  preload : Option PreloadOutcome
  deriving DecidableEq

/-- The error surfaced by `Promise.all` over the chain's preload steps:
the first rejection in chain order, if any. -/
def firstFailure : List Route → Option JsError
  | [] => none
  | r :: rest =>
    match r.preload with
    | some (.rejected e) => some e
    | _ => firstFailure rest

/-- The `seoDetails` accumulation loop (`server.js` lines 193-196):
`seoDetails = _.defaults({}, _.get(r, "seo", {}), seoDetails)` folded over
the matched chain in root-to-leaf order, starting from `{}`. -/
def aggregateSeo (chain : List Route) : Seo :=
  chain.foldl (fun acc r => seoDefaults r.seo acc) []

/-- The specification's reading of the aggregation: scanning the chain in
the given order, the first entry that defines a field supplies its value.
Applied to the reversed (leaf-first) chain this is "the child-most entry
defining the field wins; ancestors fill in only fields left unset". -/
def firstSeo : List Route → String → Option String
  | [], _ => none
  | r :: rest, k => jsOrOpt (seoGet r.seo k) (firstSeo rest k)

/-! ### View trees and document composition -/

/-- Modelled from the spec: the view trees returned by the three render
entry points of `core/utils/renderer` (not under `src/`): the normal page
render, the not-found render, and the error render.  The spec treats them
as black boxes returning a view tree. -/
inductive ViewTree where
  | page (url : String)
  | notFound (url : String)
  | errorView (e : JsError)
  deriving DecidableEq

/-- The arguments the handler passes to the `Html` document shell:
stylesheets, scripts, an optional `seo` prop (the catch handlers pass
none) and the view tree rendered as the document body. -/
structure Doc where
  stylesheets : List String
  scripts : List String
  seo : Option Seo
  body : ViewTree
  deriving DecidableEq

/-- Modelled from the spec: serialization of a view tree to static markup
(`ReactDOMServer.renderToStaticMarkup` over the component returned by the
renderer). -/
def renderViewTree : ViewTree → String
  | .page u => "<div data-page=\"" ++ u ++ "\"></div>"
  | .notFound u => "<div data-not-found=\"" ++ u ++ "\"></div>"
  | .errorView e => "<div data-error=\"" ++ e.message ++ "\"></div>"

/-- One SEO meta tag. -/
def seoTagOf (p : String × String) : String :=
  "<meta name=\"" ++ p.1 ++ "\" content=\"" ++ p.2 ++ "\"/>"

/-- The SEO tag block; empty when no `seo` prop is passed (the error
document). -/
def seoTagsOf : Option Seo → String
  | none => ""
  | some s => String.join (s.map seoTagOf)

/-- A stylesheet link tag. -/
def linkTagOf (c : String) : String :=
  "<link rel=\"stylesheet\" href=\"" ++ c ++ "\"/>"

/-- A script tag. -/
def scriptTagOf (j : String) : String :=
  "<script src=\"" ++ j ++ "\"></script>"

/-- Modelled from the spec: the `Html` document shell
(`core/components/html`, not under `src/`) serialized to markup, with the
doctype prefix the handler prepends in `res.send` -- the string sent for
every non-redirect response. -/
def composeDocument (d : Doc) : String :=
  "<!DOCTYPE html><html><head>" ++ seoTagsOf d.seo
    ++ String.join (d.stylesheets.map linkTagOf)
    ++ "</head><body>" ++ renderViewTree d.body
    ++ String.join (d.scripts.map scriptTagOf)
    ++ "</body></html>"

/-! ### HTTP responses -/

/-- The response the handler emits.  `redirect` models Express
`res.status(s).redirect(url)`: with a single argument `res.redirect` sets
the response status to 302 itself, overwriting any status set before, and
sends no document produced by the pipeline.  `json` models
`res.send(JSON.stringify(...))`. -/
inductive HttpResponse where
  | html (status : Nat) (doc : Doc)
  | redirect (status : Nat) (location : String)
  | json (body : String)
  deriving DecidableEq

/-! ### The catch-all handler `app.get("*")` -/

/-- The per-request inputs of `app.get("*")` taken from the request
object: the path and the `.css`/`.js` file lists extracted from the
build's asset manifest (`extractFilesFromAssets`). -/
structure Request where
  path : String
  allCss : List String
  allJs : List String
  deriving DecidableEq

/-- The resolved and settled per-request environment of the catch-all
handler: `mod` and `currentRoutes` are the outputs of the route resolver
(`getModuleByUrl` / `getRouteFromPath`, external to `src/`); `setupThrow`
is a synchronous throw from `getPreloadDataPromises`; `renderThrow` is a
synchronous throw of the normal or not-found render call; `pageCtxUrl`
and `pageCtxStatus` are modelled from the spec: the redirect target and
status the page render sets on the request context (the view layer
signals a redirect by setting a redirect target on the context). -/
structure CatchAllEnv where
  mod : String
  currentRoutes : List Route
  setupThrow : Option JsError
  renderThrow : Option JsError
  pageCtxUrl : Option String
  pageCtxStatus : Option Nat
  deriving DecidableEq

/-- The function `getErrorComponent` (`server.js` lines 72-85): wraps the failure in an
error view after defaulting its `statusCode` property to 500
(`err.statusCode = err.statusCode || 500`). -/
def getErrorComponent (e : JsError) : ViewTree :=
  ViewTree.errorView { e with statusCode := some (jsOrNat e.statusCode 500) }

/-- The document the two catch handlers send: the error view composed with
the filtered stylesheets and scripts and no `seo` prop, at the given
status -- which in the source is the local `statusCode` variable, still
holding its initial value 200 on every catch path. -/
def errorResponse (statusCode : Nat) (css js : List String) (e : JsError) : HttpResponse :=
  HttpResponse.html statusCode
    { stylesheets := css, scripts := js, seo := none, body := getErrorComponent e }

/-- The catch-all handler (`server.js` lines 129-268) as a function from
the settled per-request environment to the one response it emits.
Control flow mirrors the source: a synchronous throw of
`getPreloadDataPromises` hits the outer `catch`; a preload rejection or a
throwing render hits the promise `.catch`; both send the error document
at the stale `statusCode` (still 200).  Otherwise `seoDetails` is
accumulated, the not-found or page render runs (the not-found render sets
`context.status = 404`, modelled from the spec), `statusCode` becomes
`context.status || 200`, and either `res.status(statusCode).redirect`
(which forces 302) or `res.status(statusCode).send` of the composed
document is emitted. -/
def handleCatchAll (env : CatchAllEnv) (req : Request) : HttpResponse :=
  let routeCss := currentRouteCss env.mod req.allCss
  let routeJs := currentRouteJs req.allJs
  match env.setupThrow with
  | some e => errorResponse 200 routeCss routeJs e
  | none =>
    match firstFailure env.currentRoutes with
    | some e => errorResponse 200 routeCss routeJs e
    | none =>
      let seoDetails := aggregateSeo env.currentRoutes
      match env.renderThrow with
      | some e => errorResponse 200 routeCss routeJs e
      | none =>
        let rendered :=
          if env.currentRoutes.isEmpty then
            (ViewTree.notFound req.path, (some 404 : Option Nat), (none : Option String))
          else
            (ViewTree.page req.path, env.pageCtxStatus, env.pageCtxUrl)
        let statusCode := jsOrNat rendered.2.1 200
        match rendered.2.2 with
        | some u => HttpResponse.redirect 302 u
        | none =>
          HttpResponse.html statusCode
            { stylesheets := routeCss, scripts := routeJs
              seo := some seoDetails, body := rendered.1 }

/-! ### The manifest handler `app.get("/manifest.json")` (lines 107-127) -/

/-- One entry of the manifest icon list. -/
structure Icon where
  src : String
  sizes : String
  deriving DecidableEq

/-- The `pwa` section of the shared config object: its `icons` field and
its remaining fields, kept abstract as key/value data. -/
structure Pwa where
  icons : List Icon
  fields : List (String × String)
  deriving DecidableEq

/-- The process-shared config object imported by the server module. -/
structure Config where
  pwa : Pwa
  other : List (String × String)
  deriving DecidableEq

/-- The fixed size list `availableSizes = [72, 96, 128, 144, 152, 192, 384, 512]`. -/
def availableSizes : List Nat := [72, 96, 128, 144, 152, 192, 384, 512]

/-- One icon entry: the required asset path and the `"<n>x<n>"` size
string. -/
def iconFor (size : Nat) : Icon :=
  { src := "resources/images/pwa/icon-" ++ toString size ++ "x" ++ toString size ++ ".png"
    sizes := toString size ++ "x" ++ toString size }

/-- The fixed icon list built on every `/manifest.json` request. -/
def manifestIcons : List Icon := availableSizes.map iconFor

/-- JSON serialization of one icon object. -/
def serializeIcon (i : Icon) : String :=
  "\x7b\"src\":\"" ++ i.src ++ "\",\"sizes\":\"" ++ i.sizes ++ "\"\x7d"

/-- JSON serialization of the remaining `pwa` fields. -/
def serializeFields (fs : List (String × String)) : String :=
  String.join (fs.map fun p => ",\"" ++ p.1 ++ "\":\"" ++ p.2 ++ "\"")

/-- Models `JSON.stringify(pwa)`. -/
def serializePwa (p : Pwa) : String :=
  "\x7b\"icons\":[" ++ String.intercalate "," (p.icons.map serializeIcon) ++ "]"
    ++ serializeFields p.fields ++ "\x7d"

/-- The `/manifest.json` handler.  `const { pwa } = config` aliases the
shared config's `pwa` object and `_.set(pwa, "icons", icons)` mutates it
in place, so the handler is modelled as a state transformer on the shared
config: it returns the updated shared config together with the response
`res.send(JSON.stringify(pwa))`. -/
def handleManifest (cfg : Config) : Config × HttpResponse :=
  let pwa := { cfg.pwa with icons := manifestIcons }
  ({ cfg with pwa := pwa }, HttpResponse.json (serializePwa pwa))

/-! ### Claim-side definitions (stated from the spec's words, for
refinement comparisons) -/

/-- Stated from the spec's words for claim comparison: page-asset
filtering that excludes exactly the assets namespaced to a module
different from the resolved one (keeping the resolved module's own) plus
auxiliary worker scripts. -/
def claimPageAssetKeep (mod a : String) : Bool :=
  !(startsWithJs "mod-" (fileNameOf a) && !(jsIncludes (fileNameOf a) mod))
    && !(startsWithJs "service-worker.js" (fileNameOf a))

/-- The claim-side filter over a whole asset list. -/
def claimFilterPageAssets (mod : String) (l : List String) : List String :=
  l.filter (claimPageAssetKeep mod)

/-! ### Outcome classification (the four render outcomes) -/

/-- The response reflects a normal page outcome. -/
def isPageOutcome : HttpResponse → Bool
  | .html _ d => match d.body with | .page _ => true | _ => false
  | _ => false

/-- The response reflects a not-found outcome. -/
def isNotFoundOutcome : HttpResponse → Bool
  | .html _ d => match d.body with | .notFound _ => true | _ => false
  | _ => false

/-- The response reflects a redirect outcome. -/
def isRedirectOutcome : HttpResponse → Bool
  | .redirect _ _ => true
  | _ => false

/-- The response reflects an error outcome. -/
def isErrorOutcome : HttpResponse → Bool
  | .html _ d => match d.body with | .errorView _ => true | _ => false
  | _ => false

/-! ### Lemmas about the SEO merge -/

@[simp]
theorem jsOrOpt_some (v : String) (b : Option String) : jsOrOpt (some v) b = some v := rfl

@[simp]
theorem jsOrOpt_none (b : Option String) : jsOrOpt none b = b := rfl

@[simp]
theorem jsOrOpt_none_right (a : Option String) : jsOrOpt a none = a := by
  cases a <;> rfl

theorem jsOrOpt_assoc (a b c : Option String) :
    jsOrOpt (jsOrOpt a b) c = jsOrOpt a (jsOrOpt b c) := by
  cases a <;> rfl

theorem seoGet_append (a b : Seo) (k : String) :
    seoGet (a ++ b) k = jsOrOpt (seoGet a k) (seoGet b k) := by
  induction a with
  | nil => simp [seoGet]
  | cons p rest ih =>
    by_cases h : (p.1 == k) = true
    · simp [seoGet, h]
    · simp only [Bool.not_eq_true] at h
      simp [seoGet, h, ih]

theorem seoGet_filter_keep (a b : Seo) (k : String) (h : seoHas a k = false) :
    seoGet (b.filter fun p => !(seoHas a p.1)) k = seoGet b k := by
  induction b with
  | nil => simp
  | cons p rest ih =>
    rw [List.filter_cons]
    by_cases hk : (p.1 == k) = true
    · have hpk : p.1 = k := eq_of_beq hk
      rw [hpk, h]
      simp [seoGet, hk, hpk]
    · simp only [Bool.not_eq_true] at hk
      by_cases hp : (!(seoHas a p.1)) = true
      · simp [hp, seoGet, hk, ih]
      · simp only [Bool.not_eq_true'] at hp
        simp [hp, seoGet, hk, ih]

theorem seoGet_defaults (a b : Seo) (k : String) :
    seoGet (seoDefaults a b) k = jsOrOpt (seoGet a k) (seoGet b k) := by
  unfold seoDefaults
  rw [seoGet_append]
  cases h : seoGet a k with
  | some v => simp
  | none =>
    have hh : seoHas a k = false := by simp [seoHas, h]
    simp [seoGet_filter_keep a b k hh]

theorem firstSeo_append (l₁ l₂ : List Route) (k : String) :
    firstSeo (l₁ ++ l₂) k = jsOrOpt (firstSeo l₁ k) (firstSeo l₂ k) := by
  induction l₁ with
  | nil => simp [firstSeo]
  | cons r rest ih =>
    simp [firstSeo, ih, jsOrOpt_assoc]

theorem aggregate_loop (chain : List Route) (init : Seo) (k : String) :
    seoGet (chain.foldl (fun acc r => seoDefaults r.seo acc) init) k
      = jsOrOpt (firstSeo chain.reverse k) (seoGet init k) := by
  induction chain generalizing init with
  | nil => simp [firstSeo]
  | cons r rest ih =>
    rw [List.foldl_cons, ih, List.reverse_cons, firstSeo_append,
      seoGet_defaults, jsOrOpt_assoc]
    simp [firstSeo]

/-- C4: SEO aggregation gives every field the value of the child-most
(leaf-most) chain entry that defines it -- equivalently, scanning the
reversed (leaf-first) chain, the first entry defining a field supplies
its value, so ancestors fill in only fields the descendants leave
unset -- and the empty chain aggregates to the empty metadata object. -/
theorem seo_aggregation_child_most_wins :
    (∀ chain k, seoGet (aggregateSeo chain) k = firstSeo chain.reverse k)
    ∧ aggregateSeo [] = [] := by
  constructor
  · intro chain k
    have h := aggregate_loop chain [] k
    simpa [aggregateSeo, seoGet] using h
  · rfl

/-! ### Concrete request environments used by closed theorems -/

/-- A request for a matched route whose preload step rejects. -/
def reqBoom : Request := { path := "/news", allCss := ["app.css"], allJs := ["app.js"] }

/-- Environment with a single matched route whose preload promise rejects
with a plain error carrying no `statusCode`. -/
def envBoom : CatchAllEnv :=
  { mod := ""
    currentRoutes := [{ seo := [], preload := some (.rejected { message := "boom", statusCode := none }) }]
    setupThrow := none
    renderThrow := none
    pageCtxUrl := none
    pageCtxStatus := none }

/-- Environment for a path with no matching route. -/
def envNF : CatchAllEnv :=
  { mod := ""
    currentRoutes := []
    setupThrow := none
    renderThrow := none
    pageCtxUrl := none
    pageCtxStatus := none }

/-- The request for the unmatched path. -/
def reqNF : Request := { path := "/missing", allCss := ["app.css"], allJs := ["app.js"] }

/-- A matched route with no SEO data and no preload step. -/
def routePlain : Route := { seo := [], preload := none }

/-- A request whose page render signals a redirect. -/
def reqRedir : Request := { path := "/account", allCss := [], allJs := [] }

/-- Environment where the page render sets a redirect target `/login`
with status 301 on the request context. -/
def envRedir : CatchAllEnv :=
  { mod := ""
    currentRoutes := [routePlain]
    setupThrow := none
    renderThrow := none
    pageCtxUrl := some "/login"
    pageCtxStatus := some 301 }

/-! ### Claim theorems -/

/-- C1: the claim says a failed preload (or throwing render) yields HTTP
status 500, or the failure's declared status.  The code instead responds
with the local `statusCode` variable, which no catch path ever updates
from its initial 200: at a concrete request whose single preload step
rejects with a plain error, the handler attaches statusCode 500 to the
error object for the error view, yet sends the response with HTTP status
200 -- the claim's intended status 500 never reaches `res.status`. -/
theorem preload_failure_responds_status_200 :
    handleCatchAll envBoom reqBoom
      = HttpResponse.html 200
          { stylesheets := ["app.css"]
            scripts := ["app.js"]
            seo := none
            body := ViewTree.errorView { message := "boom", statusCode := some 500 } } := by
  decide

/-- C2: when the route resolver returns an empty matched chain (and
nothing throws), the response is the not-found view at HTTP status 404
(the not-found render sets `context.status = 404`, modelled from the
spec), and the aggregated SEO metadata object is empty. -/
theorem no_match_renders_not_found_404 (env : CatchAllEnv) (req : Request)
    (hroutes : env.currentRoutes = [])
    (hsetup : env.setupThrow = none)
    (hrender : env.renderThrow = none) :
    handleCatchAll env req
      = HttpResponse.html 404
          { stylesheets := currentRouteCss env.mod req.allCss
            scripts := currentRouteJs req.allJs
            seo := some (aggregateSeo env.currentRoutes)
            body := ViewTree.notFound req.path }
    ∧ aggregateSeo env.currentRoutes = [] := by
  constructor
  · simp [handleCatchAll, hroutes, hsetup, hrender, firstFailure, jsOrNat, aggregateSeo]
  · rw [hroutes]
    rfl

/-- Witness for C2 at a concrete unmatched request. -/
theorem no_match_renders_not_found_404_witness :
    (handleCatchAll envNF reqNF
      = HttpResponse.html 404
          { stylesheets := currentRouteCss envNF.mod reqNF.allCss
            scripts := currentRouteJs reqNF.allJs
            seo := some (aggregateSeo envNF.currentRoutes)
            body := ViewTree.notFound reqNF.path })
    ∧ aggregateSeo envNF.currentRoutes = [] :=
  no_match_renders_not_found_404 envNF reqNF rfl rfl rfl

/-- C3 counterexample: the claim says the redirect response carries the
status taken from the context.  At a request whose page render sets
redirect target `/login` with context status 301, the handler runs
`res.status(301).redirect("/login")`, and Express's single-argument
`res.redirect` overwrites the status with 302: the response is a 302
redirect, not the claimed 301. -/
theorem redirect_status_not_taken_from_context :
    handleCatchAll envRedir reqRedir = HttpResponse.redirect 302 "/login"
    ∧ handleCatchAll envRedir reqRedir ≠ HttpResponse.redirect 301 "/login" := by
  decide

/-- C3 (amended): whenever the page render sets a redirect target on the
context (and nothing fails), the response is an HTTP redirect to that URL
with status 302 regardless of any status carried by the context, and no
HTML document is emitted (the redirect response carries no document). -/
theorem redirect_emits_302_no_document (env : CatchAllEnv) (req : Request) (u : String)
    (hsetup : env.setupThrow = none)
    (hfail : firstFailure env.currentRoutes = none)
    (hrender : env.renderThrow = none)
    (hne : env.currentRoutes.isEmpty = false)
    (hurl : env.pageCtxUrl = some u) :
    handleCatchAll env req = HttpResponse.redirect 302 u := by
  simp [handleCatchAll, hsetup, hfail, hrender, hne, hurl]

/-- Witness for the amended C3 at the concrete redirecting request. -/
theorem redirect_emits_302_no_document_witness :
    handleCatchAll envRedir reqRedir = HttpResponse.redirect 302 "/login" :=
  redirect_emits_302_no_document envRedir reqRedir "/login" rfl rfl rfl rfl rfl

/-- C5: when some preload step fails, the document sent is the error view
composed with the page's filtered stylesheets and scripts and with no SEO
prop -- no page document is built from the partially preloaded data. -/
theorem preload_failure_sends_error_document (env : CatchAllEnv) (req : Request) (e : JsError)
    (hsetup : env.setupThrow = none)
    (hfail : firstFailure env.currentRoutes = some e) :
    handleCatchAll env req
      = HttpResponse.html 200
          { stylesheets := currentRouteCss env.mod req.allCss
            scripts := currentRouteJs req.allJs
            seo := none
            body := getErrorComponent e } := by
  simp [handleCatchAll, hsetup, hfail, errorResponse]

/-- Witness for C5 at the concrete failing-preload request. -/
theorem preload_failure_sends_error_document_witness :
    handleCatchAll envBoom reqBoom
      = HttpResponse.html 200
          { stylesheets := currentRouteCss envBoom.mod reqBoom.allCss
            scripts := currentRouteJs reqBoom.allJs
            seo := none
            body := getErrorComponent { message := "boom", statusCode := none } } :=
  preload_failure_sends_error_document envBoom reqBoom _ rfl rfl

/-- C6 counterexample: the claim says assets of the resolved module itself
are retained.  With resolved module `home`, the script `mod-home.js` is an
asset of the resolved module and not a worker script, so the claim's
filter keeps it -- but the code's script filter drops every
`mod-`-prefixed file, the resolved module's own included. -/
theorem module_own_script_excluded :
    claimFilterPageAssets "home" ["mod-home.js"] = ["mod-home.js"]
    ∧ currentRouteJs ["mod-home.js"] = [] := by
  decide

/-- C6 (amended): the stylesheet filter keeps an asset iff it is in the
input and, when its file name is `mod-`-prefixed, the name contains the
resolved module id; the script filter keeps an asset iff it is in the
input and its file name is neither `mod-`-prefixed (the resolved module's
own scripts are excluded too) nor `service-worker.js`-prefixed; both
filters preserve the order of the input sequence. -/
theorem asset_filter_characterization :
    (∀ mod l a, a ∈ currentRouteCss mod l ↔
        (a ∈ l ∧ (startsWithJs "mod-" (fileNameOf a) = true →
          jsIncludes (fileNameOf a) mod = true)))
    ∧ (∀ l a, a ∈ currentRouteJs l ↔
        (a ∈ l ∧ startsWithJs "mod-" (fileNameOf a) = false
          ∧ startsWithJs "service-worker.js" (fileNameOf a) = false))
    ∧ (∀ mod l, (currentRouteCss mod l).Sublist l)
    ∧ (∀ l, (currentRouteJs l).Sublist l) := by
  refine ⟨?_, ?_, ?_, ?_⟩
  · intro mod l a
    simp only [currentRouteCss, List.mem_filter]
    refine and_congr_right fun _ => ?_
    rcases Bool.eq_false_or_eq_true (startsWithJs "mod-" (fileNameOf a)) with h | h <;>
      simp [h]
  · intro l a
    simp [currentRouteJs, List.mem_filter, and_assoc]
  · intro mod l
    exact List.filter_sublist l
  · intro l
    exact List.filter_sublist l

/-- C7: every request produces exactly one of the four render outcomes
(page, not-found, redirect, error), and the handler emits exactly one
response reflecting it: across all environments, exactly one of the four
outcome classifiers holds of the single response `handleCatchAll`
returns. -/
theorem exactly_one_render_outcome (env : CatchAllEnv) (req : Request) :
    (isPageOutcome (handleCatchAll env req)).toNat
      + (isNotFoundOutcome (handleCatchAll env req)).toNat
      + (isRedirectOutcome (handleCatchAll env req)).toNat
      + (isErrorOutcome (handleCatchAll env req)).toNat = 1 := by
  unfold handleCatchAll
  dsimp only
  repeat' split
  all_goals rfl

/-- C8: document composition is deterministic -- two invocations of the
composer on identical view tree, asset lists and SEO metadata produce
byte-identical strings. -/
theorem compose_deterministic (v₁ v₂ : ViewTree) (c₁ c₂ s₁ s₂ : List String)
    (m₁ m₂ : Option Seo)
    (hv : v₁ = v₂) (hc : c₁ = c₂) (hs : s₁ = s₂) (hm : m₁ = m₂) :
    composeDocument { stylesheets := c₁, scripts := s₁, seo := m₁, body := v₁ }
      = composeDocument { stylesheets := c₂, scripts := s₂, seo := m₂, body := v₂ } := by
  rw [hv, hc, hs, hm]

/-- Witness for C8 at concrete composer inputs. -/
theorem compose_deterministic_witness :
    composeDocument
        { stylesheets := ["app.css"]
          scripts := ["app.js"]
          seo := some [("title", "T")]
          body := ViewTree.page "/home" }
      = composeDocument
        { stylesheets := ["app.css"]
          scripts := ["app.js"]
          seo := some [("title", "T")]
          body := ViewTree.page "/home" } :=
  compose_deterministic _ _ _ _ _ _ _ _ rfl rfl rfl rfl

/-- The empty pattern is a substring of every character list. -/
theorem hasSubChars_nil (s : List Char) : hasSubChars [] s = true := by
  cases s <;> simp [hasSubChars, List.isPrefixOf]

/-- C9: when the resolved module identifier is the empty string, the
stylesheet filter excludes nothing -- `fileName.indexOf("")` is never
`-1`, so every stylesheet, `mod-`-prefixed ones included, is kept. -/
theorem empty_module_keeps_every_stylesheet (l : List String) :
    currentRouteCss "" l = l := by
  refine List.filter_eq_self.mpr ?_
  intro a _
  simp [jsIncludes, show "".data = ([] : List Char) from rfl, hasSubChars_nil]

/-- C10: every `/manifest.json` request updates the shared config in
place, setting its `pwa.icons` field to the same fixed list regardless of
the incoming config; every other field of the shared config (the other
`pwa` fields and the non-`pwa` sections) is unchanged; the response body
is the JSON serialization of the updated `pwa` object; and a second
request over the shared state leaves it unchanged. -/
theorem manifest_mutates_shared_config (cfg : Config) :
    (handleManifest cfg).1 = { cfg with pwa := { cfg.pwa with icons := manifestIcons } }
    ∧ (handleManifest cfg).1.pwa.icons = manifestIcons
    ∧ (handleManifest cfg).1.pwa.fields = cfg.pwa.fields
    ∧ (handleManifest cfg).1.other = cfg.other
    ∧ (handleManifest cfg).2 = HttpResponse.json (serializePwa (handleManifest cfg).1.pwa)
    ∧ (handleManifest (handleManifest cfg).1).1 = (handleManifest cfg).1 :=
  ⟨rfl, rfl, rfl, rfl, rfl, rfl⟩

end ReactPwaServer
